import Mathlib

/-!
Shallow embedding of `src/esxi_patcher.py` (class `ESXiStandalonePatcher`).

Effectful Python code is modelled as pure Lean functions over explicit
environment records: every external observation the code makes (an SSH
command's exit status, a power-state poll, a TCP probe, a management-API
task outcome, file sizes) is a field of the environment, and every remote
command or API call the code issues is recorded in an explicit event trace
returned alongside the result.  Branching, ordering and the fatal /
non-fatal classification are translated line by line from the source.
-/

namespace EsxiPatcher

/-! ### Install strategy selection — `install_patch_via_ssh`, lines 603–651

The command is chosen from the patch file name's extension with
`str.endswith` checks in the order `.zip`, `.vib`, `.iso`; any other name
logs an error and returns `False` before any SSH command is issued. -/

/-- Python's `str.endswith(suffix)`, as a suffix check on the character
sequences of the two strings. -/
def pyEndsWith (s suffix : String) : Bool :=
  suffix.data.isSuffixOf s.data

/-- The four install strategies of the data model (`PatchArtifact`). -/
inductive InstallStrategy where
  | packageInstall
  | componentInstall
  | profileUpdate
  | unsupported
deriving DecidableEq, Repr

/-- Pure extension routing extracted from the `endswith` chain of
`install_patch_via_ssh` (lines 613–622). -/
def selectInstallStrategy (patchName : String) : InstallStrategy :=
  if pyEndsWith patchName ".zip" then .packageInstall
  else if pyEndsWith patchName ".vib" then .componentInstall
  else if pyEndsWith patchName ".iso" then .profileUpdate
  else .unsupported

/-- The install command string built for a given strategy and remote path,
exactly as in lines 614, 616 and 619 of the source. -/
def installCommand (strategy : InstallStrategy) (patchPath : String) : Option String :=
  match strategy with
  | .packageInstall =>
      some ("esxcli software vib install -d '" ++ patchPath ++ "' --no-sig-check")
  | .componentInstall =>
      some ("esxcli software vib install -v '" ++ patchPath ++ "' --no-sig-check")
  | .profileUpdate =>
      some ("esxcli software profile update -d '" ++ patchPath ++ "'")
  | .unsupported => none

/-- `install_patch_via_ssh(ssh_client, datastore)`.  `patchName` is
`self.patch_name` (`none` models `None`); `execOk cmd` is the exit status
of running `cmd` over SSH.  Returns the boolean result together with the
list of SSH commands actually executed. -/
def install_patch_via_ssh (patchName : Option String) (datastore : String)
    (execOk : String → Bool) : Bool × List String :=
  match patchName with
  | none => (false, [])
  | some name =>
      let patchPath := datastore ++ "/" ++ name
      if pyEndsWith name ".zip" then
        let cmd := "esxcli software vib install -d '" ++ patchPath ++ "' --no-sig-check"
        (execOk cmd, [cmd])
      else if pyEndsWith name ".vib" then
        let cmd := "esxcli software vib install -v '" ++ patchPath ++ "' --no-sig-check"
        (execOk cmd, [cmd])
      else if pyEndsWith name ".iso" then
        let cmd := "esxcli software profile update -d '" ++ patchPath ++ "'"
        (execOk cmd, [cmd])
      else
        (false, [])

/-! ### Upload — `copy_patch_via_scp`, lines 395–433

After `sftp.put`, the remote size reported by `sftp.stat` is compared to
the local size; the function returns `True` exactly on equality. -/

/-- Environment of one `copy_patch_via_scp` call: whether the local patch
file exists, whether `sftp.stat(datastore)` succeeds, whether `sftp.put`
completes without raising, and the two byte counts compared at line 422. -/
structure ScpEnv where
  patchFileExists : Bool
  datastoreOk : Bool
  putOk : Bool
  remoteSize : Nat
  localSize : Nat
deriving DecidableEq, Repr

/-- `copy_patch_via_scp(ssh_client, host, datastore)` (lines 395–433). -/
def copy_patch_via_scp (env : ScpEnv) : Bool :=
  if !env.patchFileExists then false
  else if !env.datastoreOk then false
  else if !env.putOk then false
  else env.remoteSize == env.localSize

/-! ### Maintenance mode — `enter_maintenance_mode` (435–452) and
`exit_maintenance_mode` (825–842)

Both first read `host_obj.runtime.inMaintenanceMode` and return `True`
without submitting a task when the host is already in the target state;
otherwise they submit the transition task and wait, and any task error or
timeout (raised by `_wait_for_task`) is caught and turned into `False`.
A failed task is modelled as leaving the maintenance flag unchanged. -/

/-- Task submissions observable on the management plane. -/
inductive MMEvent where
  | enterTask
  | exitTask
deriving DecidableEq, Repr

/-- `enter_maintenance_mode(host_obj)`: input is the current
`inMaintenanceMode` flag and the outcome the enter task would have;
output is ((returned bool, new maintenance flag), submitted tasks). -/
def enter_maintenance_mode (inMM : Bool) (taskOk : Bool) :
    (Bool × Bool) × List MMEvent :=
  if inMM then ((true, inMM), [])
  else if taskOk then ((true, true), [.enterTask])
  else ((false, inMM), [.enterTask])

/-- `exit_maintenance_mode(host_obj)`: same shape as entering, guarded by
`not host_obj.runtime.inMaintenanceMode` (line 830). -/
def exit_maintenance_mode (inMM : Bool) (taskOk : Bool) :
    (Bool × Bool) × List MMEvent :=
  if !inMM then ((true, inMM), [])
  else if taskOk then ((true, false), [.exitTask])
  else ((false, inMM), [.exitTask])

/-! ### Workload shutdown — `check_and_shutdown_vms`, lines 454–555

Per VM id the loop body (lines 483–539) reads the power state; on a read
failure it immediately forces power-off; if the state does not contain
"Powered on" the VM is skipped; otherwise it sends `power.shutdown`, polls
`power.getstate` every 5 s while the elapsed time is below
`graceful_timeout`, and, when no poll saw "Powered off", sends exactly one
`power.off`, sleeps 5 s, and re-checks.  The function returns `True` iff
`failed_vms` stayed empty. -/

/-- SSH commands the shutdown loop body may issue for one VM.  `poll k`
is the k-th `power.getstate` of the graceful wait loop; `postForcePoll`
is the single re-check after a forced power-off (line 534). -/
inductive VMCmd where
  | getState
  | gracefulShutdown
  | poll (k : Nat)
  | forceOff
  | postForcePoll
deriving DecidableEq, Repr

/-- Environment of the shutdown loop body for one VM.  Each SSH
observation is a field: `stateReadOk`/`poweredOn` model line 487's
`power.getstate` (success flag, and whether "Powered on" occurs in the
output); `polls k` models the k-th poll of the graceful loop as
(command succeeded, "Powered off" occurs in output); `forceOk` the exit
status of `power.off`; `postForcePoll` the re-check after it. -/
structure VMEnv where
  stateReadOk : Bool
  poweredOn : Bool
  polls : Nat → Bool × Bool
  forceOk : Bool
  postForcePoll : Bool × Bool

/-- A graceful-loop poll that observed the VM powered off: the
`power.getstate` succeeded and its output contained "Powered off"
(line 514). -/
def pollOff (env : VMEnv) (k : Nat) : Bool :=
  (env.polls k).1 && (env.polls k).2

/-- Number of polls the graceful loop performs for timeout `T`: the loop
guard `time.time() - start < T` is checked before each 5-second sleep, so
iteration k runs iff 5·k < T, i.e. there are ⌈T/5⌉ iterations. -/
def numPolls (T : Nat) : Nat := (T + 4) / 5

/-- Index of the first successful "Powered off" poll among
`i, i+1, …, i+fuel-1`, scanning in loop order. -/
def firstOffPoll (env : VMEnv) (i : Nat) : Nat → Option Nat
  | 0 => none
  | fuel + 1 => if pollOff env i then some i else firstOffPoll env (i + 1) fuel

/-- One iteration of the VM loop of `check_and_shutdown_vms`
(lines 483–539): returns whether the id was appended to `failed_vms`,
together with the SSH commands issued for this VM, in order. -/
def shutdown_vm_step (env : VMEnv) (T : Nat) : Bool × List VMCmd :=
  if !env.stateReadOk then
    -- line 492: state unreadable → force power-off as a last resort
    (!env.forceOk, [.getState, .forceOff])
  else if !env.poweredOn then
    -- line 500: not "Powered on" → skip
    (false, [.getState])
  else
    match firstOffPoll env 0 (numPolls T) with
    | some k =>
        -- graceful shutdown observed within the window: no force
        (false, [.getState, .gracefulShutdown] ++ (List.range (k + 1)).map .poll)
    | none =>
        let tr := [VMCmd.getState, .gracefulShutdown]
          ++ (List.range (numPolls T)).map .poll ++ [.forceOff]
        if !env.forceOk then (true, tr)
        else
          (!((env.postForcePoll.1) && (env.postForcePoll.2)), tr ++ [.postForcePoll])

/-- `check_and_shutdown_vms(ssh_client, graceful_timeout)` over a
discovered VM list (lines 467–550): `enumOk` is the exit status of the
`getallvms` listing, `vms` the per-VM environments; the result is `True`
iff no VM was recorded as failed (empty listing included). -/
def check_and_shutdown_vms (enumOk : Bool) (vms : List VMEnv) (T : Nat) : Bool :=
  if !enumOk || vms.isEmpty then true
  else vms.all fun env => !(shutdown_vm_step env T).1

/-! ### Workload startup — `start_vms_after_reboot`, lines 557–601

For each VM whose `power.getstate` succeeds and contains "Powered off", a
`power.on` is issued; failures are collected in a local list and logged.
The function always returns `True` (the started count and the failures
are only logged), except that a failed or empty `getallvms` listing also
returns `True` at line 567. -/

/-- SSH commands `start_vms_after_reboot` may issue, tagged by VM id. -/
inductive StartCmd where
  | getState (id : String)
  | powerOn (id : String)
deriving DecidableEq, Repr

/-- Per-VM environment of the startup loop: `stateOk`/`poweredOff` model
the `power.getstate` call of line 576 (success, and whether "Powered off"
occurs in the output); `startOk` the exit status of `power.on`. -/
structure VMStartEnv where
  id : String
  stateOk : Bool
  poweredOff : Bool
  startOk : Bool
deriving DecidableEq, Repr

/-- Loop body for one VM (lines 575–591): (started increment, failed
increment, commands issued). -/
def start_vm_step (v : VMStartEnv) : Nat × Nat × List StartCmd :=
  if v.stateOk && v.poweredOff then
    if v.startOk then (1, 0, [.getState v.id, .powerOn v.id])
    else (0, 1, [.getState v.id, .powerOn v.id])
  else (0, 0, [.getState v.id])

/-- `start_vms_after_reboot(ssh_client)` (lines 557–601): returns the
boolean the source returns, the internal `started_vms` counter
(line 572/587, logged at line 596 but not returned), and the command
trace. -/
def start_vms_after_reboot (enumOk : Bool) (vms : List VMStartEnv) :
    Bool × Nat × List StartCmd :=
  if !enumOk || vms.isEmpty then (true, 0, [])
  else
    let steps := vms.map start_vm_step
    (true, (steps.map fun s => s.1).sum, steps.flatMap fun s => s.2.2)

/-! ### Reboot-recovery wait — `wait_for_host_reboot`, lines 734–823

Stage 1 (down-detection, lines 745–770) probes TCP port 22 up to 60
times, 5 s apart; the first probe with `connect_ex ≠ 0` sets
`host_went_down` and breaks.  If the port never went down, only a warning
is printed and the function continues.  Stage 2 (up-detection, lines
776–823) loops while elapsed < `max_wait = 600` s: it probes port 22; on
success it sleeps 15 s, probes port 443, and on success sleeps 25 s and
returns `True`; otherwise it sleeps 5 s at the loop bottom and retries.
Exhausting `max_wait` returns `False`.  Treating the probes themselves as
instantaneous, an iteration entered at elapsed time `e` probes SSH at
`e`, probes the API at `e + 15`, and the next iteration starts at
`e + 20` (SSH was up, API down) or `e + 5` (SSH down). -/

/-- Down-detection (lines 745–770): `sshDownProbe i` is `true` when the
i-th probe of port 22 finds it reachable (`connect_ex == 0`).  Returns
`host_went_down`: some probe among the 60 failed to connect. -/
def downDetect (sshDownProbe : Nat → Bool) : Bool :=
  (List.range 60).any fun i => !sshDownProbe i

/-- Up-detection loop (lines 780–819).  `sshUp e` / `apiUp e` tell
whether port 22 / port 443 is reachable at elapsed second `e`.  The loop
guard is `elapsed < 600` (`max_wait`, line 776). -/
def upWait (sshUp apiUp : Nat → Bool) (elapsed : Nat) : Bool :=
  if h : elapsed < 600 then
    if sshUp elapsed then
      if apiUp (elapsed + 15) then true
      else upWait sshUp apiUp (elapsed + 20)
    else upWait sshUp apiUp (elapsed + 5)
  else false
termination_by 600 - elapsed
decreasing_by
  · omega
  · omega

/-- `wait_for_host_reboot(host, timeout)` (lines 734–823).  The `timeout`
parameter of the source is unused by its body (the bounds 60·5 s and
600 s are hard-coded).  Returns `(host_went_down, result)`; the source
returns only the second component — `host_went_down` never influences
it. -/
def wait_for_host_reboot (sshDownProbe sshUp apiUp : Nat → Bool) : Bool × Bool :=
  (downDetect sshDownProbe, upWait sshUp apiUp 0)

/-! ### Per-host workflow — `process_host`, lines 872–1093

The body is a straight-line sequence of steps; each fatal step returns
`(False, reason)` immediately, each non-fatal step only logs.  Step 7/8
branches on `is_host_in_cluster`: clustered hosts enter maintenance mode
first (fatal) and then run the VM shutdown (non-fatal); standalone hosts
shut VMs down first (non-fatal) and then enter maintenance mode (fatal).
Every external call outcome is a field of `HostEnv`; the returned trace
lists the steps actually executed, with their outcomes. -/

/-- Steps of `process_host`, each tagged with its observed outcome. -/
inductive Step where
  | connectAPI (ok : Bool)
  | getHostObj (ok : Bool)
  | enableServices (ok : Bool)
  | waitSSH (ok : Bool)
  | sshConnect (ok : Bool)
  | findDatastore (ok : Bool)
  | copyPatch (ok : Bool)
  | enterMaintenance (ok : Bool)
  | shutdownVMs (ok : Bool)
  | installPatch (ok : Bool)
  | verifyPatch (ok : Bool)
  | cleanupPatch (ok : Bool)
  | rebootHost (ok : Bool)
  | waitReboot (ok : Bool)
  | reconnectAPI (ok : Bool)
  | getHostObj2 (ok : Bool)
  | sshReconnect (ok : Bool)
  | exitMaintenance (ok : Bool)
  | startVMs (ok : Bool)
  | disableServices (ok : Bool)
deriving DecidableEq, Repr

/-- Environment of one `process_host` run: the outcome every external
call would have.  `patchConfigured` models
`self.patch_file and os.path.exists(self.patch_file)` (lines 929, 965,
982); `datastoreOk` whether `find_boot_datastore` returns a path;
`reconnectOks i` the outcome of post-reboot reconnection attempt `i`
(loop of lines 1017–1027, `max_retries = 5`). -/
structure HostEnv where
  apiConnectOk : Bool
  hostObjOk : Bool
  isClustered : Bool
  enableServicesOk : Bool
  sshWaitOk : Bool
  sshConnectOk : Bool
  datastoreOk : Bool
  patchConfigured : Bool
  copyOk : Bool
  vmShutdownOk : Bool
  enterMMOk : Bool
  installOk : Bool
  verifyOk : Bool
  cleanupOk : Bool
  rebootOk : Bool
  rebootWaitOk : Bool
  reconnectOks : Nat → Bool
  hostObjOk2 : Bool
  sshConnectOk2 : Bool
  exitMMOk : Bool
  startVMsOk : Bool
  disableServicesOk : Bool

/-- The post-reboot API reconnection loop (lines 1014–1030) succeeds iff
one of its `max_retries = 5` attempts connects. -/
def reconnectAnyOk (env : HostEnv) : Bool :=
  (List.range 5).any env.reconnectOks

/-- Steps 9–18 of `process_host` (lines 964–1074), executed after the
topology branch: patch install (fatal, lines 965–969), verification
(always run, non-fatal, lines 975–979), cleanup (only with a configured
patch, non-fatal, lines 982–985), reboot (fatal), reboot wait (fatal),
API reconnection (fatal), host-object re-resolution (fatal), SSH
reconnection (non-fatal), maintenance-mode exit (non-fatal), VM startup
(standalone with an SSH session only, non-fatal), service disable
(non-fatal), then `(True, "Успех")`. -/
def process_host_tail (env : HostEnv) : (Bool × String) × List Step :=
  if env.patchConfigured && !env.installOk then
    ((false, "Не удалось установить патч"), [.installPatch false])
  else
    let tr1 : List Step :=
      (if env.patchConfigured then [Step.installPatch true] else [])
        ++ [.verifyPatch env.verifyOk]
        ++ (if env.patchConfigured then [Step.cleanupPatch env.cleanupOk] else [])
    if !env.rebootOk then
      ((false, "Ошибка при перезагрузке"), tr1 ++ [.rebootHost false])
    else if !env.rebootWaitOk then
      ((false, "Хост не перезагрузился или недоступен после перезагрузки"),
        tr1 ++ [.rebootHost true, .waitReboot false])
    else if !(reconnectAnyOk env) then
      ((false, "Не удалось подключиться после перезагрузки"),
        tr1 ++ [.rebootHost true, .waitReboot true, .reconnectAPI false])
    else if !env.hostObjOk2 then
      ((false, "Не удалось получить объект хоста после перезагрузки"),
        tr1 ++ [.rebootHost true, .waitReboot true, .reconnectAPI true, .getHostObj2 false])
    else
      ((true, "Успех"),
        tr1 ++ [.rebootHost true, .waitReboot true, .reconnectAPI true, .getHostObj2 true,
                .sshReconnect env.sshConnectOk2, .exitMaintenance env.exitMMOk]
          ++ (if !env.isClustered && env.sshConnectOk2
              then [Step.startVMs env.startVMsOk] else [])
          ++ [.disableServices env.disableServicesOk])

/-- `process_host(host)` (lines 872–1093): result `(success, message)`
with the source's reason strings, plus the executed step trace. -/
def process_host (env : HostEnv) : (Bool × String) × List Step :=
  if !env.apiConnectOk then
    ((false, "Ошибка подключения к API"), [.connectAPI false])
  else if !env.hostObjOk then
    ((false, "Ошибка получения объекта хоста"), [.connectAPI true, .getHostObj false])
  else
    let pre : List Step :=
      [.connectAPI true, .getHostObj true,
       .enableServices env.enableServicesOk, .waitSSH env.sshWaitOk]
    if !env.sshConnectOk then
      ((false, "Не удалось подключиться по SSH"), pre ++ [.sshConnect false])
    else if !env.datastoreOk then
      ((false, "Не удалось найти датастор"), pre ++ [.sshConnect true, .findDatastore false])
    else if env.patchConfigured && !env.copyOk then
      ((false, "Не удалось скопировать патч"),
        pre ++ [.sshConnect true, .findDatastore true, .copyPatch false])
    else
      let pre2 : List Step :=
        pre ++ [.sshConnect true, .findDatastore true]
          ++ (if env.patchConfigured then [Step.copyPatch true] else [])
      if env.isClustered then
        if !env.enterMMOk then
          ((false, "Не удалось перевести в режим обслуживания"),
            pre2 ++ [.enterMaintenance false])
        else
          let t := process_host_tail env
          (t.1, pre2 ++ [.enterMaintenance true, .shutdownVMs env.vmShutdownOk] ++ t.2)
      else
        if !env.enterMMOk then
          ((false, "Не удалось перевести в режим обслуживания"),
            pre2 ++ [.shutdownVMs env.vmShutdownOk, .enterMaintenance false])
        else
          let t := process_host_tail env
          (t.1, pre2 ++ [.shutdownVMs env.vmShutdownOk, .enterMaintenance true] ++ t.2)

/-- The `try/except` boundary of `process_host` (lines 1076–1079): any
unexpected exception with message `m` is caught there and turned into the
result `(False, "Исключение: " + m)`; otherwise the body's result
stands. -/
def process_host_result (env : HostEnv) (exc : Option String) : Bool × String :=
  match exc with
  | some m => (false, "Исключение: " ++ m)
  | none => (process_host env).1

/-! ### Fleet run — `run`, lines 1095–1162

Hosts are processed strictly in order; each host's `(success, message)`
is stored into the dict `results` under `host.name` (line 1131) — a
Python dict assignment, so a repeated name overwrites the earlier entry
in place.  The final tally iterates `results.items()` and the function
returns `fail_count == 0`. -/

/-- The `ESXiHost` dataclass (lines 46–54). -/
structure ESXiHost where
  name : String
  ip : String
  username : String
  password : String
  ssh_port : Nat
  api_port : Nat
deriving DecidableEq, Repr

/-- Python dict assignment `results[k] = v` on an insertion-ordered
association list: overwrite in place when the key exists, else append. -/
def dictInsert (k : String) (v : α) : List (String × α) → List (String × α)
  | [] => [(k, v)]
  | (k', v') :: rest =>
      if k' = k then (k, v) :: rest else (k', v') :: dictInsert k v rest

/-- The `results` dict after the host loop of `run` (lines 1126–1137). -/
def fleetResults (outcome : ESXiHost → Bool × String) (hosts : List ESXiHost) :
    List (String × (Bool × String)) :=
  hosts.foldl (fun acc h => dictInsert h.name (outcome h) acc) []

/-- `run()` (lines 1095–1162): returns `fail_count == 0` over the
tallied `results` dict, together with that dict.  `outcome h` is the
`(success, message)` that `process_host(h)` produces for host `h`. -/
def run (outcome : ESXiHost → Bool × String) (hosts : List ESXiHost) :
    Bool × List (String × (Bool × String)) :=
  let results := fleetResults outcome hosts
  let failCount := results.countP fun r => !r.2.1
  (failCount == 0, results)

/-- A host's workflow outcome as `run` consumes it: `process_host`'s
result filtered through its exception boundary. -/
def hostOutcome (envOf : ESXiHost → HostEnv) (excOf : ESXiHost → Option String)
    (h : ESXiHost) : Bool × String :=
  process_host_result (envOf h) (excOf h)

/-- A fully successful standalone-host environment, used as the base
point for concrete runs. -/
def envAllOk : HostEnv :=
  { apiConnectOk := true, hostObjOk := true, isClustered := false,
    enableServicesOk := true, sshWaitOk := true, sshConnectOk := true,
    datastoreOk := true, patchConfigured := true, copyOk := true,
    vmShutdownOk := true, enterMMOk := true, installOk := true,
    verifyOk := true, cleanupOk := true, rebootOk := true, rebootWaitOk := true,
    reconnectOks := fun _ => true, hostObjOk2 := true, sshConnectOk2 := true,
    exitMMOk := true, startVMsOk := true, disableServicesOk := true }

/-! ## Theorems -/

/-- C5: install-strategy selection from the artifact file name is a
total, pure function of its extension (`selectInstallStrategy` is a total
Lean function): whenever the routing yields a command (`.zip` the package
archive install, `.vib` the single-component install, `.iso` the
image-profile update), `install_patch_via_ssh` executes exactly that
command; when the routing yields `unsupported`, it fails with no remote
command executed. -/
theorem install_strategy_routing (name datastore : String) (execOk : String → Bool) :
    (∀ cmd,
        installCommand (selectInstallStrategy name) (datastore ++ "/" ++ name) = some cmd →
        install_patch_via_ssh (some name) datastore execOk = (execOk cmd, [cmd])) ∧
    (installCommand (selectInstallStrategy name) (datastore ++ "/" ++ name) = none →
        install_patch_via_ssh (some name) datastore execOk = (false, [])) := by
  unfold installCommand selectInstallStrategy install_patch_via_ssh
  by_cases h1 : pyEndsWith name ".zip" <;>
    by_cases h2 : pyEndsWith name ".vib" <;>
      by_cases h3 : pyEndsWith name ".iso" <;>
        simp_all

/-- C5 witness at concrete inputs. -/
theorem install_strategy_routing_witness :
    install_patch_via_ssh (some "p.zip") "/vmfs/volumes/ds" (fun _ => true) =
      (true, ["esxcli software vib install -d '/vmfs/volumes/ds/p.zip' --no-sig-check"]) ∧
    install_patch_via_ssh (some "p.txt") "/vmfs/volumes/ds" (fun _ => true) = (false, []) :=
  ⟨(install_strategy_routing "p.zip" "/vmfs/volumes/ds" (fun _ => true)).1 _ (by decide),
   (install_strategy_routing "p.txt" "/vmfs/volumes/ds" (fun _ => true)).2 (by decide)⟩

/-- C6: `copy_patch_via_scp` returns true only when the remote size
reported after the transfer exactly equals the local file size; any
difference, even of one byte, makes it return false. -/
theorem copy_patch_size_integrity (env : ScpEnv) :
    (copy_patch_via_scp env = true → env.remoteSize = env.localSize) ∧
    (env.remoteSize ≠ env.localSize → copy_patch_via_scp env = false) := by
  unfold copy_patch_via_scp
  cases hp : env.patchFileExists <;> cases hd : env.datastoreOk <;>
    cases hu : env.putOk <;> simp_all

/-- C6 witness: a one-byte size mismatch is a failed upload. -/
theorem copy_patch_size_integrity_witness :
    (1024 : Nat) ≠ 1023 ∧
      copy_patch_via_scp ⟨true, true, true, 1024, 1023⟩ = false :=
  ⟨by decide, (copy_patch_size_integrity ⟨true, true, true, 1024, 1023⟩).2 (by decide)⟩

/-- C7: entering and exiting maintenance mode are idempotent.  A host
already reporting the target state gets a no-op success with no task
submitted; with a fixed task outcome, calling either operation twice
yields the same result and final state as calling it once; and after a
successful call the second call is a no-op success regardless of the
later task outcome `tk₂`. -/
theorem maintenance_mode_idempotent (st tk tk₂ : Bool) :
    (st = true → enter_maintenance_mode st tk = ((true, st), [])) ∧
    (st = false → exit_maintenance_mode st tk = ((true, st), [])) ∧
    (enter_maintenance_mode (enter_maintenance_mode st tk).1.2 tk).1
        = (enter_maintenance_mode st tk).1 ∧
    (exit_maintenance_mode (exit_maintenance_mode st tk).1.2 tk).1
        = (exit_maintenance_mode st tk).1 ∧
    ((enter_maintenance_mode st tk).1.1 = true →
        enter_maintenance_mode (enter_maintenance_mode st tk).1.2 tk₂
          = ((true, (enter_maintenance_mode st tk).1.2), [])) ∧
    ((exit_maintenance_mode st tk).1.1 = true →
        exit_maintenance_mode (exit_maintenance_mode st tk).1.2 tk₂
          = ((true, (exit_maintenance_mode st tk).1.2), [])) := by
  cases st <;> cases tk <;> cases tk₂ <;> decide

/-- C7 witness: a host already in maintenance mode is a no-op success. -/
theorem maintenance_mode_idempotent_witness :
    enter_maintenance_mode true true = ((true, true), []) :=
  (maintenance_mode_idempotent true true true).1 rfl

/-- C10: when the power-state query for a workload fails, the loop body
issues a forced power-off immediately — no graceful-shutdown command, no
polling wait — and the workload joins the failed list exactly when that
forced command itself fails. -/
theorem shutdown_vm_unreadable_forces_off (env : VMEnv) (T : Nat)
    (h : env.stateReadOk = false) :
    (shutdown_vm_step env T).2 = [VMCmd.getState, VMCmd.forceOff] ∧
    ((shutdown_vm_step env T).1 = true ↔ env.forceOk = false) := by
  simp [shutdown_vm_step, h]

/-- C10 witness: a workload whose state read fails and whose forced
power-off succeeds still receives the force command and is not recorded
as failed. -/
theorem shutdown_vm_unreadable_forces_off_witness :
    (shutdown_vm_step ⟨false, false, fun _ => (true, true), true, (true, true)⟩ 180).2
        = [VMCmd.getState, VMCmd.forceOff] ∧
    (shutdown_vm_step ⟨false, false, fun _ => (true, true), true, (true, true)⟩ 180).1
        = false := by
  have h := shutdown_vm_unreadable_forces_off
    ⟨false, false, fun _ => (true, true), true, (true, true)⟩ 180 rfl
  exact ⟨h.1, by rcases hb : (shutdown_vm_step ⟨false, false, fun _ => (true, true), true,
    (true, true)⟩ 180).1 <;> simp_all⟩

/-- `firstOffPoll` scans exactly the polls `i … i+fuel-1`: it returns
`none` iff none of them observed the VM powered off. -/
lemma firstOffPoll_eq_none_iff (env : VMEnv) :
    ∀ fuel i, firstOffPoll env i fuel = none ↔
      ∀ k, i ≤ k → k < i + fuel → pollOff env k = false := by
  intro fuel
  induction fuel with
  | zero =>
      intro i
      simp only [firstOffPoll]
      constructor
      · intro _ k h1 h2; omega
      · intro _; trivial
  | succ n ih =>
      intro i
      rw [firstOffPoll]
      cases hp : pollOff env i with
      | true =>
          simp only [if_true]
          constructor
          · intro h; exact absurd h (by simp)
          · intro h; exact absurd (h i le_rfl (by omega)) (by simp [hp])
      | false =>
          simp only [Bool.false_eq_true, if_false, ih (i + 1)]
          constructor
          · intro h k h1 h2
            rcases Nat.eq_or_lt_of_le h1 with rfl | hlt
            · exact hp
            · exact h k hlt (by omega)
          · intro h k h1 h2; exact h k (by omega) (by omega)

/-- When `firstOffPoll` returns an index, that poll observed the VM
powered off and lies in the scanned range. -/
lemma firstOffPoll_eq_some (env : VMEnv) :
    ∀ fuel i k, firstOffPoll env i fuel = some k →
      pollOff env k = true ∧ i ≤ k ∧ k < i + fuel := by
  intro fuel
  induction fuel with
  | zero => intro i k h; simp [firstOffPoll] at h
  | succ n ih =>
      intro i k h
      rw [firstOffPoll] at h
      cases hp : pollOff env i with
      | true =>
          rw [hp, if_pos rfl, Option.some.injEq] at h
          subst h; exact ⟨hp, le_rfl, by omega⟩
      | false =>
          rw [hp] at h
          simp only [Bool.false_eq_true, if_false] at h
          obtain ⟨h1, h2, h3⟩ := ih (i + 1) k h
          exact ⟨h1, by omega, by omega⟩

/-- Graceful-loop poll events never count as a forced power-off. -/
lemma count_forceOff_polls (n : Nat) :
    ((List.range n).map VMCmd.poll).count VMCmd.forceOff = 0 := by
  rw [List.count_eq_zero]
  intro h
  obtain ⟨x, _, hx⟩ := List.mem_map.mp h
  exact VMCmd.noConfusion hx

/-- C2: for a workload whose state was read as powered on, if some poll
of the graceful window (the loop runs `numPolls T` polls for timeout `T`)
observes it powered off, no forced power-off command is sent; if no poll
does, exactly one forced power-off command is sent. -/
theorem shutdown_vm_forced_iff_timeout (env : VMEnv) (T : Nat)
    (hread : env.stateReadOk = true) (hon : env.poweredOn = true) :
    ((∃ k, k < numPolls T ∧ pollOff env k = true) →
        (shutdown_vm_step env T).2.count VMCmd.forceOff = 0) ∧
    ((∀ k, k < numPolls T → pollOff env k = false) →
        (shutdown_vm_step env T).2.count VMCmd.forceOff = 1) := by
  unfold shutdown_vm_step
  simp only [hread, hon, Bool.not_true, Bool.false_eq_true, if_false]
  cases hfo : firstOffPoll env 0 (numPolls T) with
  | none =>
      constructor
      · intro ⟨k, hk, hoff⟩
        have := (firstOffPoll_eq_none_iff env (numPolls T) 0).mp hfo k (by omega) (by omega)
        simp [this] at hoff
      · intro _
        by_cases hf : env.forceOk <;>
          simp [hf, List.count_append, List.count_cons, count_forceOff_polls]
  | some k =>
      constructor
      · intro _
        simp [List.count_append, List.count_cons, count_forceOff_polls]
      · intro hall
        obtain ⟨hoff, _, hk⟩ := firstOffPoll_eq_some env (numPolls T) 0 k hfo
        have := hall k (by omega)
        simp [this] at hoff

/-- C2 witness: with timeout 30 s (6 polls) and a VM that reports
powered off from the third poll on, no force is sent; with a VM that
never reports powered off, exactly one force is sent. -/
theorem shutdown_vm_forced_iff_timeout_witness :
    ((∃ k, k < numPolls 30 ∧
        pollOff ⟨true, true, fun j => (true, 2 ≤ j), true, (true, true)⟩ k = true) ∧
      (shutdown_vm_step ⟨true, true, fun j => (true, 2 ≤ j), true, (true, true)⟩ 30).2.count
          VMCmd.forceOff = 0) ∧
    (shutdown_vm_step ⟨true, true, fun _ => (true, false), true, (true, true)⟩ 30).2.count
        VMCmd.forceOff = 1 := by
  refine ⟨⟨⟨2, by decide, by decide⟩, ?_⟩, ?_⟩
  · exact (shutdown_vm_forced_iff_timeout
      ⟨true, true, fun j => (true, 2 ≤ j), true, (true, true)⟩ 30 rfl rfl).1
      ⟨2, by decide, by decide⟩
  · exact (shutdown_vm_forced_iff_timeout
      ⟨true, true, fun _ => (true, false), true, (true, true)⟩ 30 rfl rfl).2
      (fun k _ => by simp [pollOff])

/-- If the up-detection loop started at elapsed time `e` returns `true`,
then some loop iteration inside the `max_wait` bound observed the SSH
port reachable and, 15 s later, the API port reachable. -/
lemma upWait_true_observes (sshUp apiUp : Nat → Bool) :
    ∀ n e, 600 - e ≤ n → upWait sshUp apiUp e = true →
      ∃ t, t < 600 ∧ sshUp t = true ∧ apiUp (t + 15) = true := by
  intro n
  induction n with
  | zero =>
      intro e he h
      rw [upWait] at h
      rw [dif_neg (by omega)] at h
      exact absurd h (by simp)
  | succ n ih =>
      intro e he h
      rw [upWait] at h
      by_cases h600 : e < 600
      · rw [dif_pos h600] at h
        cases hs : sshUp e with
        | true =>
            rw [hs, if_pos rfl] at h
            cases ha : apiUp (e + 15) with
            | true => exact ⟨e, h600, hs, ha⟩
            | false =>
                rw [ha] at h
                simp only [Bool.false_eq_true, if_false] at h
                exact ih (e + 20) (by omega) h
        | false =>
            rw [hs] at h
            simp only [Bool.false_eq_true, if_false] at h
            exact ih (e + 5) (by omega) h
      · rw [dif_neg h600] at h
        exact absurd h (by simp)

/-- C4: the reboot-recovery wait returns `true` only if some iteration
within the `max_wait = 600` s bound observed the remote-shell port
reachable and, after the 15 s settle delay, the management-API port
reachable; and its return value does not depend on the down-detection
probes at all, so observing zero unreachable polls in the down stage
(merely a warning in the source) can never make it return `false`. -/
theorem wait_for_host_reboot_requires_both_ports (d d' sshUp apiUp : Nat → Bool) :
    ((wait_for_host_reboot d sshUp apiUp).2 = true →
        ∃ t, t < 600 ∧ sshUp t = true ∧ apiUp (t + 15) = true) ∧
    (wait_for_host_reboot d sshUp apiUp).2 = (wait_for_host_reboot d' sshUp apiUp).2 := by
  exact ⟨fun h => upWait_true_observes sshUp apiUp 600 0 (by omega) h, rfl⟩

/-- C4 witness: with both ports immediately reachable the wait succeeds
and the two observations exist; the down-phase oracle is irrelevant. -/
theorem wait_for_host_reboot_requires_both_ports_witness :
    ∃ t, t < 600 ∧ (fun _ : Nat => true) t = true ∧
      (fun _ : Nat => true) (t + 15) = true :=
  (wait_for_host_reboot_requires_both_ports
      (fun _ => true) (fun _ => false) (fun _ => true) (fun _ => true)).1
    (by rw [wait_for_host_reboot]; show upWait _ _ 0 = true; rw [upWait]; simp)

/-- C1: once the per-host workflow reaches the topology branch (API
connect, host-object resolution, SSH connect, datastore discovery and —
when a patch is configured — the upload all succeeded), a clustered host
enters maintenance mode before the workload shutdown and a
maintenance-mode failure aborts the run with its fatal reason, the
workload shutdown never having been invoked; when it succeeds, the trace
shows enter-maintenance immediately followed by the workload shutdown and
the run's result is whatever the remaining phases produce, whatever the
shutdown outcome.  A standalone host always runs the workload shutdown
first, immediately followed by enter-maintenance; a maintenance-mode
failure aborts with the same fatal reason while the shutdown outcome
never does. -/
theorem process_host_topology_order (env : HostEnv)
    (hapi : env.apiConnectOk = true) (hobj : env.hostObjOk = true)
    (hssh : env.sshConnectOk = true) (hds : env.datastoreOk = true)
    (hcopy : env.patchConfigured = true → env.copyOk = true) :
    (env.isClustered = true →
       (env.enterMMOk = false →
          (process_host env).1 = (false, "Не удалось перевести в режим обслуживания") ∧
          ∀ b, Step.shutdownVMs b ∉ (process_host env).2) ∧
       (env.enterMMOk = true →
          (∃ l₁ l₂, (process_host env).2
              = l₁ ++ Step.enterMaintenance true :: Step.shutdownVMs env.vmShutdownOk :: l₂) ∧
          (process_host env).1 = (process_host_tail env).1)) ∧
    (env.isClustered = false →
       (∃ l₁ l₂, (process_host env).2
           = l₁ ++ Step.shutdownVMs env.vmShutdownOk :: Step.enterMaintenance env.enterMMOk :: l₂) ∧
       (env.enterMMOk = false →
          (process_host env).1 = (false, "Не удалось перевести в режим обслуживания")) ∧
       (env.enterMMOk = true →
          (process_host env).1 = (process_host_tail env).1)) := by
  by_cases hp : env.patchConfigured = true
  case pos =>
    have hcp := hcopy hp
    refine ⟨fun hcl => ⟨fun hmm => ?_, fun hmm => ?_⟩, fun hcl => ?_⟩
    · constructor
      · simp [process_host, hapi, hobj, hssh, hds, hp, hcp, hcl, hmm]
      · intro b
        simp [process_host, hapi, hobj, hssh, hds, hp, hcp, hcl, hmm]
    · constructor
      · refine ⟨[Step.connectAPI true, .getHostObj true, .enableServices env.enableServicesOk,
          .waitSSH env.sshWaitOk, .sshConnect true, .findDatastore true, .copyPatch true],
          (process_host_tail env).2, ?_⟩
        simp [process_host, hapi, hobj, hssh, hds, hp, hcp, hcl, hmm]
      · simp [process_host, hapi, hobj, hssh, hds, hp, hcp, hcl, hmm]
    · cases hmm : env.enterMMOk
      · refine ⟨⟨[Step.connectAPI true, .getHostObj true, .enableServices env.enableServicesOk,
            .waitSSH env.sshWaitOk, .sshConnect true, .findDatastore true, .copyPatch true],
            [], ?_⟩, fun _ => ?_, fun h => absurd h (by simp [hmm])⟩
        · simp [process_host, hapi, hobj, hssh, hds, hp, hcp, hcl, hmm]
        · simp [process_host, hapi, hobj, hssh, hds, hp, hcp, hcl, hmm]
      · refine ⟨⟨[Step.connectAPI true, .getHostObj true, .enableServices env.enableServicesOk,
            .waitSSH env.sshWaitOk, .sshConnect true, .findDatastore true, .copyPatch true],
            (process_host_tail env).2, ?_⟩, fun h => absurd h (by simp [hmm]), fun _ => ?_⟩
        · simp [process_host, hapi, hobj, hssh, hds, hp, hcp, hcl, hmm]
        · simp [process_host, hapi, hobj, hssh, hds, hp, hcp, hcl, hmm]
  case neg =>
    have hp' : env.patchConfigured = false := by
      cases h : env.patchConfigured
      · rfl
      · exact absurd h hp
    refine ⟨fun hcl => ⟨fun hmm => ?_, fun hmm => ?_⟩, fun hcl => ?_⟩
    · constructor
      · simp [process_host, hapi, hobj, hssh, hds, hp', hcl, hmm]
      · intro b
        simp [process_host, hapi, hobj, hssh, hds, hp', hcl, hmm]
    · constructor
      · refine ⟨[Step.connectAPI true, .getHostObj true, .enableServices env.enableServicesOk,
          .waitSSH env.sshWaitOk, .sshConnect true, .findDatastore true],
          (process_host_tail env).2, ?_⟩
        simp [process_host, hapi, hobj, hssh, hds, hp', hcl, hmm]
      · simp [process_host, hapi, hobj, hssh, hds, hp', hcl, hmm]
    · cases hmm : env.enterMMOk
      · refine ⟨⟨[Step.connectAPI true, .getHostObj true, .enableServices env.enableServicesOk,
            .waitSSH env.sshWaitOk, .sshConnect true, .findDatastore true],
            [], ?_⟩, fun _ => ?_, fun h => absurd h (by simp [hmm])⟩
        · simp [process_host, hapi, hobj, hssh, hds, hp', hcl, hmm]
        · simp [process_host, hapi, hobj, hssh, hds, hp', hcl, hmm]
      · refine ⟨⟨[Step.connectAPI true, .getHostObj true, .enableServices env.enableServicesOk,
            .waitSSH env.sshWaitOk, .sshConnect true, .findDatastore true],
            (process_host_tail env).2, ?_⟩, fun h => absurd h (by simp [hmm]), fun _ => ?_⟩
        · simp [process_host, hapi, hobj, hssh, hds, hp', hcl, hmm]
        · simp [process_host, hapi, hobj, hssh, hds, hp', hcl, hmm]

/-- C1 witness: a clustered host whose maintenance-mode entry fails
aborts with the fatal reason and never runs the workload shutdown. -/
theorem process_host_topology_order_witness :
    (process_host { envAllOk with isClustered := true, enterMMOk := false }).1
        = (false, "Не удалось перевести в режим обслуживания") ∧
    Step.shutdownVMs true ∉
      (process_host { envAllOk with isClustered := true, enterMMOk := false }).2 ∧
    Step.shutdownVMs false ∉
      (process_host { envAllOk with isClustered := true, enterMMOk := false }).2 := by
  have h := ((process_host_topology_order
      { envAllOk with isClustered := true, enterMMOk := false }
      rfl rfl rfl rfl (fun _ => rfl)).1 rfl).1 rfl
  exact ⟨h.1, h.2 true, h.2 false⟩

/-- C3: in the standalone workflow a workload-shutdown result of `false`
does not abort the host run — the run still enters maintenance mode,
still installs the patch, and (when the remaining phases succeed)
terminates in success. -/
theorem process_host_shutdown_failure_still_succeeds (env : HostEnv)
    (hapi : env.apiConnectOk = true) (hobj : env.hostObjOk = true)
    (hssh : env.sshConnectOk = true) (hds : env.datastoreOk = true)
    (hcl : env.isClustered = false) (hvm : env.vmShutdownOk = false)
    (hpc : env.patchConfigured = true) (hcp : env.copyOk = true)
    (hmm : env.enterMMOk = true) (hin : env.installOk = true)
    (hrb : env.rebootOk = true) (hrw : env.rebootWaitOk = true)
    (hrc : reconnectAnyOk env = true) (ho2 : env.hostObjOk2 = true) :
    (process_host env).1 = (true, "Успех") ∧
    Step.shutdownVMs false ∈ (process_host env).2 ∧
    Step.enterMaintenance true ∈ (process_host env).2 ∧
    Step.installPatch true ∈ (process_host env).2 := by
  simp [process_host, process_host_tail, hapi, hobj, hssh, hds, hcl, hvm,
    hpc, hcp, hmm, hin, hrb, hrw, hrc, ho2]

/-- C3 witness: the all-successful standalone run with a failed workload
shutdown still reports host success. -/
theorem process_host_shutdown_failure_still_succeeds_witness :
    (process_host { envAllOk with vmShutdownOk := false }).1 = (true, "Успех") :=
  (process_host_shutdown_failure_still_succeeds
      { envAllOk with vmShutdownOk := false }
      rfl rfl rfl rfl rfl rfl rfl rfl rfl rfl rfl rfl (by decide) rfl).1

/-- Inserting a key absent from the dict appends the new entry. -/
lemma dictInsert_fresh {α : Type} (k : String) (v : α) :
    ∀ l : List (String × α), k ∉ l.map Prod.fst → dictInsert k v l = l ++ [(k, v)] := by
  intro l
  induction l with
  | nil => intro _; rfl
  | cons hd tl ih =>
      obtain ⟨k', v'⟩ := hd
      intro h
      rw [List.map_cons, List.mem_cons] at h
      push_neg at h
      obtain ⟨h1, h2⟩ := h
      rw [dictInsert, if_neg fun he => h1 he.symm, ih h2, List.cons_append]

/-- With pairwise-distinct, fresh host names the result dict is the
per-host outcome list in order. -/
lemma fleetResults_nodup_eq (outcome : ESXiHost → Bool × String) :
    ∀ (hosts : List ESXiHost) (acc : List (String × (Bool × String))),
      (hosts.map ESXiHost.name).Nodup →
      (∀ h ∈ hosts, h.name ∉ acc.map Prod.fst) →
      hosts.foldl (fun a h => dictInsert h.name (outcome h) a) acc
        = acc ++ hosts.map fun h => (h.name, outcome h) := by
  intro hosts
  induction hosts with
  | nil => intro acc _ _; simp
  | cons hd tl ih =>
      intro acc hnd hfresh
      rw [List.foldl_cons, dictInsert_fresh _ _ acc (hfresh hd (List.mem_cons_self hd tl))]
      rw [List.map_cons, List.nodup_cons] at hnd
      rw [ih (acc ++ [(hd.name, outcome hd)]) hnd.2 ?_]
      · simp
      · intro h hh
        rw [List.map_append, List.mem_append]
        push_neg
        refine ⟨hfresh h (List.mem_cons_of_mem _ hh), ?_⟩
        simp only [List.map_cons, List.map_nil, List.mem_singleton]
        intro he
        exact hnd.1 (he ▸ List.mem_map_of_mem ESXiHost.name hh)

/-- C8 (amended: host names pairwise distinct): a fleet run over hosts
with distinct names produces a report with exactly one entry per host,
each host's entry carrying that host's own outcome — a fatal failure or
caught exception on one host never removes another host's entry — and
the overall result is success exactly when every host's outcome is
success. -/
theorem run_fleet_aggregation (hosts : List ESXiHost)
    (envOf : ESXiHost → HostEnv) (excOf : ESXiHost → Option String)
    (hnd : (hosts.map ESXiHost.name).Nodup) :
    (run (hostOutcome envOf excOf) hosts).2.length = hosts.length ∧
    (∀ h ∈ hosts,
        (h.name, hostOutcome envOf excOf h) ∈ (run (hostOutcome envOf excOf) hosts).2) ∧
    ((run (hostOutcome envOf excOf) hosts).1 = true ↔
        ∀ h ∈ hosts, (hostOutcome envOf excOf h).1 = true) := by
  have hres : fleetResults (hostOutcome envOf excOf) hosts
      = hosts.map fun h => (h.name, hostOutcome envOf excOf h) := by
    unfold fleetResults
    rw [fleetResults_nodup_eq _ hosts [] hnd (by simp)]
    simp
  refine ⟨?_, ?_, ?_⟩
  · show (fleetResults (hostOutcome envOf excOf) hosts).length = _
    rw [hres, List.length_map]
  · intro h hh
    show _ ∈ fleetResults (hostOutcome envOf excOf) hosts
    rw [hres]
    exact List.mem_map_of_mem _ hh
  · show ((fleetResults (hostOutcome envOf excOf) hosts).countP (fun r => !r.2.1) == 0)
        = true ↔ _
    rw [hres, beq_iff_eq, List.countP_eq_zero]
    constructor
    · intro hall h hh
      have := hall (h.name, hostOutcome envOf excOf h) (List.mem_map_of_mem _ hh)
      simpa using this
    · intro hall r hr
      obtain ⟨h, hh, rfl⟩ := List.mem_map.mp hr
      simpa using hall h hh

/-- C8 witness: three distinct hosts, the middle one failing fatally,
still yield a three-entry report and an overall failure result. -/
theorem run_fleet_aggregation_witness :
    (run (hostOutcome
        (fun h => if h.ip = "10.0.0.2" then { envAllOk with sshConnectOk := false } else envAllOk)
        (fun _ => none))
      [⟨"a", "10.0.0.1", "root", "pw", 22, 443⟩,
       ⟨"b", "10.0.0.2", "root", "pw", 22, 443⟩,
       ⟨"c", "10.0.0.3", "root", "pw", 22, 443⟩]).2.length = 3 ∧
    ((run (hostOutcome
        (fun h => if h.ip = "10.0.0.2" then { envAllOk with sshConnectOk := false } else envAllOk)
        (fun _ => none))
      [⟨"a", "10.0.0.1", "root", "pw", 22, 443⟩,
       ⟨"b", "10.0.0.2", "root", "pw", 22, 443⟩,
       ⟨"c", "10.0.0.3", "root", "pw", 22, 443⟩]).1 = true ↔
      ∀ h ∈ [(⟨"a", "10.0.0.1", "root", "pw", 22, 443⟩ : ESXiHost),
             ⟨"b", "10.0.0.2", "root", "pw", 22, 443⟩,
             ⟨"c", "10.0.0.3", "root", "pw", 22, 443⟩],
        (hostOutcome
          (fun h => if h.ip = "10.0.0.2" then { envAllOk with sshConnectOk := false } else envAllOk)
          (fun _ => none) h).1 = true) := by
  have h := run_fleet_aggregation
    [⟨"a", "10.0.0.1", "root", "pw", 22, 443⟩,
     ⟨"b", "10.0.0.2", "root", "pw", 22, 443⟩,
     ⟨"c", "10.0.0.3", "root", "pw", 22, 443⟩]
    (fun h => if h.ip = "10.0.0.2" then { envAllOk with sshConnectOk := false } else envAllOk)
    (fun _ => none) (by decide)
  exact ⟨h.1, h.2.2⟩

/-- The duplicate-name fleet of the C8 counterexample: two hosts sharing
one name, the first of which fails fatally by an exception at its
host-run boundary while the second succeeds. -/
def dupNameOutcome : ESXiHost → Bool × String :=
  hostOutcome (fun _ => envAllOk)
    (fun h => if h.ip = "10.0.0.1" then some "boom" else none)

/-- C8 counterexample: with two hosts sharing the name "esxi", the final
report has a single entry — not one per host — and the overall result is
success although the first host's workflow failed, refuting the claim as
stated for runs whose hosts do not have pairwise-distinct names. -/
theorem run_duplicate_name_counterexample :
    (run dupNameOutcome
        [⟨"esxi", "10.0.0.1", "root", "pw", 22, 443⟩,
         ⟨"esxi", "10.0.0.2", "root", "pw", 22, 443⟩]).1 = true ∧
    (dupNameOutcome ⟨"esxi", "10.0.0.1", "root", "pw", 22, 443⟩).1 = false ∧
    (run dupNameOutcome
        [⟨"esxi", "10.0.0.1", "root", "pw", 22, 443⟩,
         ⟨"esxi", "10.0.0.2", "root", "pw", 22, 443⟩]).2.length = 1 := by
  decide

/-- A power-on command appears in a startup loop iteration's trace iff
that VM was observed powered off by a successful state query. -/
lemma powerOn_mem_start_vm_step (v : VMStartEnv) (id : String) :
    StartCmd.powerOn id ∈ (start_vm_step v).2.2 ↔
      v.id = id ∧ v.stateOk = true ∧ v.poweredOff = true := by
  unfold start_vm_step
  cases hs : v.stateOk <;> cases hp : v.poweredOff <;> cases ht : v.startOk <;>
    simp [eq_comm]

/-- One startup iteration contributes 1 to `started_vms` exactly when the
VM was observed off and its power-on succeeded. -/
lemma start_vm_step_count (v : VMStartEnv) :
    (start_vm_step v).1 = if v.stateOk && v.poweredOff && v.startOk then 1 else 0 := by
  unfold start_vm_step
  cases hs : v.stateOk <;> cases hp : v.poweredOff <;> cases ht : v.startOk <;> simp

/-- The `started_vms` counter equals the number of VMs observed off whose
power-on succeeded. -/
lemma start_vms_started_count (vms : List VMStartEnv) :
    ((vms.map start_vm_step).map fun s => s.1).sum
      = vms.countP fun v => v.stateOk && v.poweredOff && v.startOk := by
  induction vms with
  | nil => rfl
  | cons v tl ih =>
      simp only [List.map_cons, List.sum_cons, List.countP_cons, ih, start_vm_step_count v]
      split <;> omega

/-- C9 (amended): the post-reboot workload startup issues a power-on
command only for workloads observed powered off by a successful state
query, never aborts on a per-workload failure — the returned flag is
`true` whatever the per-workload outcomes — and only counts internally
(without returning) the number of workloads successfully started; the
source returns that boolean flag, not the started count. -/
theorem start_vms_only_off_never_aborts (enumOk : Bool) (vms : List VMStartEnv) :
    (start_vms_after_reboot enumOk vms).1 = true ∧
    (∀ id, StartCmd.powerOn id ∈ (start_vms_after_reboot enumOk vms).2.2 →
        ∃ v ∈ vms, v.id = id ∧ v.stateOk = true ∧ v.poweredOff = true) ∧
    (enumOk = true →
        (start_vms_after_reboot enumOk vms).2.1
          = vms.countP fun v => v.stateOk && v.poweredOff && v.startOk) := by
  by_cases hc : (!enumOk || vms.isEmpty) = true
  · have heq : start_vms_after_reboot enumOk vms = (true, 0, []) := by
      unfold start_vms_after_reboot; rw [if_pos hc]
    refine ⟨by rw [heq], ?_, ?_⟩
    · intro id hmem; rw [heq] at hmem; simp at hmem
    · intro he
      rw [he] at hc
      simp only [Bool.not_true, Bool.false_or] at hc
      rw [List.isEmpty_iff] at hc
      subst hc
      rw [heq]
      rfl
  · have heq : start_vms_after_reboot enumOk vms
        = (true, ((vms.map start_vm_step).map fun s => s.1).sum,
            (vms.map start_vm_step).flatMap fun s => s.2.2) := by
      unfold start_vms_after_reboot; rw [if_neg hc]
    refine ⟨by rw [heq], ?_, fun _ => by rw [heq]; exact start_vms_started_count vms⟩
    intro id hmem
    rw [heq] at hmem
    simp only [List.mem_flatMap, List.mem_map] at hmem
    obtain ⟨s, ⟨v, hv, rfl⟩, hmemv⟩ := hmem
    exact ⟨v, hv, (powerOn_mem_start_vm_step v id).mp hmemv⟩

/-- C9 witness: one workload observed off whose power-on fails — the
operation still returns true and the started count is 0. -/
theorem start_vms_only_off_never_aborts_witness :
    (start_vms_after_reboot true [⟨"7", true, true, false⟩]).1 = true ∧
    (start_vms_after_reboot true [⟨"7", true, true, false⟩]).2.1 = 0 := by
  have h := start_vms_only_off_never_aborts true [⟨"7", true, true, false⟩]
  exact ⟨h.1, (h.2.2 rfl).trans (by decide)⟩

/-- C9 counterexample: the value `start_vms_after_reboot` returns (the
boolean that the source's `return True` yields, first component) is
identical for a run that started two workloads and for one that started
none, while the internal started counts are 2 and 0 — so the returned
value is not the count of workloads successfully started, refuting the
claim's "always returns the count" as stated. -/
theorem start_vms_return_is_not_count_counterexample :
    (start_vms_after_reboot true [⟨"1", true, true, true⟩, ⟨"2", true, true, true⟩]).1
      = (start_vms_after_reboot true [⟨"3", true, false, true⟩]).1 ∧
    (start_vms_after_reboot true [⟨"1", true, true, true⟩, ⟨"2", true, true, true⟩]).2.1 = 2 ∧
    (start_vms_after_reboot true [⟨"3", true, false, true⟩]).2.1 = 0 := by
  decide

end EsxiPatcher
